import Mathlib

/-!
Verification of the `ContainerAwareText` auto-fit text component
(`src/Components/ContainerAwareText.tsx`).

The development shallowly embeds the component's pure core:

* `getTextContent` — the recursive React-node text flattener;
* `measureAndAdjust` — the measurement pass: early-skip conditions,
  per-axis candidate computation, clamping and JS `Math.round`;
* a small event-trace model of the debounce / effect-lifecycle
  controller (`debounce`, the `useEffect` body and its cleanup).

JavaScript numbers are modelled by `ℚ` (all quantities appearing here
are exact rationals; no float rounding is relevant to the claims), and
JS `Math.round x` by `⌊x + 1/2⌋`.
-/

/-- A React node as far as `getTextContent` inspects it: a string, a
number, an array of nodes, a valid element with a `props` object (whose
`children` is again a node, possibly `undefNode` for a childless
element), or one of the remaining cases that fall through to the final
`return ''` — `null`, `undefined`, a boolean, or an element whose
`props` is falsy. Numbers are modelled as integers; only their
`toString` rendering matters to the flattener. -/
inductive ReactNode where
  | str (s : String)
  | num (n : Int)
  | arr (xs : List ReactNode)
  | elem (children : ReactNode)
  | nullNode
  | undefNode
  | boolNode (b : Bool)
  | elemNoProps
deriving Repr

mutual

/-- `getTextContent` from the source: strings and numbers render
themselves (`node.toString()`), arrays map-and-join with no separator,
valid elements with props recurse into `props.children`, everything
else contributes `''`. -/
def getTextContent : ReactNode → String
  | .str s => s
  | .num n => toString n
  | .arr xs => getTextContentList xs
  | .elem c => getTextContent c
  | .nullNode => ""
  | .undefNode => ""
  | .boolNode _ => ""
  | .elemNoProps => ""

/-- `node.map(getTextContent).join('')` on an array of nodes. -/
def getTextContentList : List ReactNode → String
  | [] => ""
  | x :: xs => getTextContent x ++ getTextContentList xs

end

mutual

/-- The depth-first, left-to-right list of text fragments of a node
(specification-side decomposition used to state C6). -/
def textFragments : ReactNode → List String
  | .str s => [s]
  | .num n => [toString n]
  | .arr xs => textFragmentsList xs
  | .elem c => textFragments c
  | .nullNode => []
  | .undefNode => []
  | .boolNode _ => []
  | .elemNoProps => []

/-- Fragments of a list of nodes, concatenated in order. -/
def textFragmentsList : List ReactNode → List String
  | [] => []
  | x :: xs => textFragments x ++ textFragmentsList xs

end

/-- The `fitMode` prop: `'width' | 'height' | 'both'`. -/
inductive FitMode where
  | width
  | height
  | both
deriving Repr, DecidableEq

/-- The configuration surface of the component that the measurement
pass reads (props of `ContainerAwareText`). -/
structure Config where
  minFontSize : ℚ
  maxFontSize : ℚ
  scaleRatio : ℚ
  enabled : Bool
  fitMode : FitMode
deriving Repr, DecidableEq

/-- A bounding box as returned by `getBoundingClientRect()`. -/
structure Rect where
  width : ℚ
  height : ℚ
deriving Repr, DecidableEq

/-- The environment a single measurement pass observes: whether
`textRef.current` is non-null, the resolved container's rectangle
(`none` when `closest(parentSelector)` / `parentElement` finds no
container), and the probe's measured rectangle at `maxFontSize`. -/
structure MeasureEnv where
  textRefPresent : Bool
  parent : Option Rect
  textMetrics : Rect
deriving Repr, DecidableEq

/-- JavaScript `Math.round`: half-way cases round toward `+∞`,
i.e. `Math.round x = ⌊x + 1/2⌋`. -/
def jsRound (x : ℚ) : ℤ := ⌊x + 1 / 2⌋

/-- `Math.max(lo, Math.min(hi, x))` — the clamp on line 143 of the
source. -/
def clampQ (lo hi x : ℚ) : ℚ := max lo (min hi x)

/-- The width-axis block (lines 120–130): when `fitMode` includes the
width axis and both the probe width and the container width are
positive, replace `calculatedSize` (initially `maxFontSize`) by
`maxFontSize * (scaleRatio / (textWidth / parentWidth))`; otherwise
leave it at `maxFontSize`. -/
def widthAxisSize (cfg : Config) (tm pr : Rect) : ℚ :=
  if (cfg.fitMode = FitMode.width ∨ cfg.fitMode = FitMode.both)
      ∧ 0 < tm.width ∧ 0 < pr.width then
    cfg.maxFontSize * (cfg.scaleRatio / (tm.width / pr.width))
  else
    cfg.maxFontSize

/-- The height-axis block (lines 132–140): when `fitMode` includes the
height axis and both heights are positive, take the minimum of the
running `calculatedSize` and the height candidate; otherwise leave the
running value unchanged. -/
def heightAxisApply (cfg : Config) (tm pr : Rect) (s : ℚ) : ℚ :=
  if (cfg.fitMode = FitMode.height ∨ cfg.fitMode = FitMode.both)
      ∧ 0 < tm.height ∧ 0 < pr.height then
    min s (cfg.maxFontSize * (cfg.scaleRatio / (tm.height / pr.height)))
  else
    s

/-- `calculatedSize` just before the clamp on line 143: start at
`maxFontSize`, run the width block, then the height block. -/
def calculatedPreClamp (cfg : Config) (tm pr : Rect) : ℚ :=
  heightAxisApply cfg tm pr (widthAxisSize cfg tm pr)

/-- The source's guard `!textContent.trim()`: the trimmed string is
empty exactly when every character of the string is whitespace, which
is how the check is embedded (executably, character by character). -/
def isBlank (s : String) : Bool := s.toList.all (fun c => c.isWhitespace)

/-- One execution of `measureAndAdjust` (lines 73–147), as a function
from the previous `fontSize` state to the next one.  The early
`return`s — disabled, `textRef.current` null, flattened content
empty/whitespace-only, no container found — leave the state unchanged;
otherwise the candidate is computed per axis, clamped to
`[minFontSize, maxFontSize]` and rounded. -/
def measureAndAdjust (cfg : Config) (env : MeasureEnv) (textContent : String)
    (fontSize : ℚ) : ℚ :=
  if ¬cfg.enabled ∨ ¬env.textRefPresent ∨ isBlank textContent then
    fontSize
  else
    match env.parent with
    | none => fontSize
    | some parentRect =>
        ((jsRound (clampQ cfg.minFontSize cfg.maxFontSize
            (calculatedPreClamp cfg env.textMetrics parentRect)) : ℤ) : ℚ)

/-- The component's `fontSize` state after a sequence of measurement
passes, starting from the `useState` initial value.  Each pass supplies
the environment and flattened content it observes. -/
def runPasses (cfg : Config) (fontSize : ℚ) :
    List (MeasureEnv × String) → ℚ
  | [] => fontSize
  | (env, tc) :: rest => runPasses cfg (measureAndAdjust cfg env tc fontSize) rest

/-!
### The trigger / debounce controller

`debounce` (lines 29–38) keeps one private `timeout` slot per debounced
closure: a call clears the slot's pending timer (if any) and schedules
`func` at `now + wait`.  The effect (lines 149–195) creates one such
closure per effect instance, immediately invokes it, wires the
observers to it, and returns a cleanup that disconnects the observers
and removes the window listener — the cleanup does **not** clear the
closure's pending timeout.

The model below tracks all outstanding `setTimeout` timers as
`(fireTime, generation)` pairs, where the generation identifies which
effect instance (and hence which captured `measureAndAdjust` closure)
a timer belongs to.  A trigger reschedules only the current
generation's timer — exactly `clearTimeout` on the closure's own slot.
An effect re-run (dependency change: content, `enabled`, bounds, …)
runs the old cleanup, bumps the generation, and performs the new
instance's initial `debouncedMeasure()` call.  A teardown (unmount or
`enabled` becoming false) runs the cleanup only.  In both cases the
timers of older generations survive, faithfully to the source.  The
event loop delivering a due timer executes the measurement whether or
not the effect is still installed, because nothing in the code cancels
it. -/

/-- Controller state: outstanding timers `(fireTime, generation)`, the
current effect generation, whether an effect instance is installed
(observers connected), and the log of executed measurement passes as
`(time, generation)` pairs. -/
structure CtrlState where
  timers : List (Nat × Nat)
  gen : Nat
  installed : Bool
  execs : List (Nat × Nat)
deriving Repr, DecidableEq

/-- Events the controller reacts to, each stamped with its time. -/
inductive CtrlEvent where
  | trigger (t : Nat)
  | effectRerun (t : Nat)
  | teardown (t : Nat)
  | fire (t : Nat)
deriving Repr, DecidableEq

/-- Mounting with `enabled = true`: the effect runs, generation 0 is
installed and `debouncedMeasure()` schedules the initial measurement at
`wait` after mount (time 0). -/
def ctrlInit (wait : Nat) : CtrlState :=
  { timers := [(wait, 0)], gen := 0, installed := true, execs := [] }

/-- One controller step.

* `trigger t` — an observer / listener fires and calls the current
  debounced closure: its own pending timer is cleared and a new one is
  scheduled at `t + wait` (no effect when no instance is installed,
  since then no observer is connected).
* `effectRerun t` — a dependency change: old cleanup (observers off,
  pending timers untouched), new instance with a fresh debounce slot,
  and its initial call schedules at `t + wait`.
* `teardown t` — unmount / disable: cleanup only; pending timers are
  left untouched (the source cleanup never calls `clearTimeout`).
* `fire t` — the event loop delivers every timer due at `t`; each one
  executes its captured measurement closure unconditionally. -/
def ctrlStep (wait : Nat) (s : CtrlState) : CtrlEvent → CtrlState
  | .trigger t =>
      if s.installed then
        { s with timers :=
            s.timers.filter (fun p => p.2 ≠ s.gen) ++ [(t + wait, s.gen)] }
      else s
  | .effectRerun t =>
      if s.installed then
        { s with gen := s.gen + 1,
                 timers := s.timers ++ [(t + wait, s.gen + 1)] }
      else s
  | .teardown _ => { s with installed := false }
  | .fire t =>
      { s with timers := s.timers.filter (fun p => p.1 ≠ t),
               execs := s.execs ++ s.timers.filter (fun p => p.1 = t) }

/-- Run the controller over a timed event trace. -/
def ctrlRun (wait : Nat) (s : CtrlState) (es : List CtrlEvent) : CtrlState :=
  es.foldl (ctrlStep wait) s

/-!
### Concrete scenarios from the spec
-/

/-- The spec's main scenario: `minFontSize = 15`, `maxFontSize = 300`,
`targetRatio = 0.4`, width fit. -/
def helloCfg : Config :=
  { minFontSize := 15, maxFontSize := 300, scaleRatio := 2 / 5,
    enabled := true, fitMode := FitMode.width }

/-- Container `500 × 50`, probe bounding box `750 × 60` at the max font
size. -/
def helloEnv : MeasureEnv :=
  { textRefPresent := true, parent := some { width := 500, height := 50 },
    textMetrics := { width := 750, height := 60 } }

/-- A configuration with fractional bounds `minFontSize = maxFontSize =
1/2` (the props are plain JS numbers, nothing restricts them to
integers). -/
def halfCfg : Config :=
  { minFontSize := 1 / 2, maxFontSize := 1 / 2, scaleRatio := 2 / 5,
    enabled := true, fitMode := FitMode.width }

/-- The not-yet-laid-out container: width reported as `0`. -/
def zeroEnv : MeasureEnv :=
  { textRefPresent := true, parent := some { width := 0, height := 50 },
    textMetrics := { width := 750, height := 60 } }

/-- A `both`-mode configuration with the spec's bounds. -/
def bothCfg : Config :=
  { minFontSize := 15, maxFontSize := 300, scaleRatio := 2 / 5,
    enabled := true, fitMode := FitMode.both }

/-- Container `500 × 100`, probe `750 × 60`: the width candidate is 80,
the height candidate 200. -/
def bothEnv : MeasureEnv :=
  { textRefPresent := true, parent := some { width := 500, height := 100 },
    textMetrics := { width := 750, height := 60 } }

/-- A width-fit configuration with a negative `maxFontSize` (tolerated
by the code, per the spec a configuration error) and the given
`scaleRatio`. -/
def negMaxCfg (r : ℚ) : Config :=
  { minFontSize := -100, maxFontSize := -10, scaleRatio := r,
    enabled := true, fitMode := FitMode.width }

/-- The unit square rectangle. -/
def unitRect : Rect := { width := 1, height := 1 }

/-!
### The container lookup's error path

`MeasureEnv.parent : Option Rect` collapses the container resolution
(lines 79–88) into found / not found.  That is faithful for the value
computation, but it erases one behaviour of the real pass: when
`parentSelector` is set and is **not a valid CSS selector** (e.g.
`"[["`), `element.closest(parentSelector)` on line 80 throws a
`SyntaxError`, and `measureAndAdjust` has no `try`/`catch`, so the
exception propagates out of the pass.  The refinement below makes that
outcome explicit; `measureAndAdjustE_agrees_*` connect it back to
`measureAndAdjust` on the non-throwing outcomes. -/

/-- The exception the measurement pass can let escape: the
`SyntaxError` thrown by `element.closest` on an invalid selector. -/
inductive JsException where
  | syntaxError
deriving Repr, DecidableEq

/-- The three outcomes of the container resolution on lines 79–88:
a container element was found (with its bounding box); the lookup
returned `null` (valid or absent selector, no match — the pass warns
and returns); or `parentSelector` is set but is not a valid CSS
selector, and `element.closest` throws a `SyntaxError`. -/
inductive ContainerLookup where
  | found (parentRect : Rect)
  | notFound
  | throwsSyntaxError
deriving Repr, DecidableEq

/-- The pass environment with the container lookup's outcome made
explicit (refining `MeasureEnv`). -/
structure MeasureEnvE where
  textRefPresent : Bool
  lookup : ContainerLookup
  textMetrics : Rect
deriving Repr, DecidableEq

/-- `measureAndAdjust` with the lookup's error path explicit:
`Except.error` models the `SyntaxError` propagating out of the pass
uncaught.  The early guard (line 74) runs **before** the lookup, so a
disabled / ref-less / blank-content pass returns without reaching the
throwing call, exactly as in the source. -/
def measureAndAdjustE (cfg : Config) (env : MeasureEnvE) (textContent : String)
    (fontSize : ℚ) : Except JsException ℚ :=
  if ¬cfg.enabled ∨ ¬env.textRefPresent ∨ isBlank textContent then
    Except.ok fontSize
  else
    match env.lookup with
    | ContainerLookup.throwsSyntaxError => Except.error JsException.syntaxError
    | ContainerLookup.notFound => Except.ok fontSize
    | ContainerLookup.found parentRect =>
        Except.ok ((jsRound (clampQ cfg.minFontSize cfg.maxFontSize
            (calculatedPreClamp cfg env.textMetrics parentRect)) : ℤ) : ℚ)

/-- A pass environment in which the configured `parentSelector` is not
a valid CSS selector, so `element.closest` throws. -/
def invalidSelectorEnv : MeasureEnvE :=
  { textRefPresent := true, lookup := ContainerLookup.throwsSyntaxError,
    textMetrics := { width := 750, height := 60 } }

/-!
## Helper lemmas
-/

/-- `String.join` distributes over `::`. -/
lemma join_cons (s : String) (l : List String) :
    String.join (s :: l) = s ++ String.join l := by
  apply String.ext
  simp

mutual

/-- A node's flattened text is the concatenation of its depth-first
fragment list. -/
theorem getTextContent_eq_join : ∀ n : ReactNode,
    getTextContent n = String.join (textFragments n)
  | .str s => by simp [getTextContent, textFragments, join_cons, String.join]
  | .num k => by simp [getTextContent, textFragments, join_cons, String.join]
  | .arr xs => by
      simp only [getTextContent, textFragments]
      exact getTextContentList_eq_join xs
  | .elem c => by
      simp only [getTextContent, textFragments]
      exact getTextContent_eq_join c
  | .nullNode => by simp [getTextContent, textFragments, String.join]
  | .undefNode => by simp [getTextContent, textFragments, String.join]
  | .boolNode b => by simp [getTextContent, textFragments, String.join]
  | .elemNoProps => by simp [getTextContent, textFragments, String.join]

/-- List version of `getTextContent_eq_join`. -/
theorem getTextContentList_eq_join : ∀ xs : List ReactNode,
    getTextContentList xs = String.join (textFragmentsList xs)
  | [] => by simp [getTextContentList, textFragmentsList, String.join]
  | x :: xs => by
      have h1 := getTextContent_eq_join x
      have h2 := getTextContentList_eq_join xs
      simp only [getTextContentList, textFragmentsList, h1, h2]
      apply String.ext
      simp

end

/-- Flattening an array node is the ordered concatenation of the
flattened elements. -/
lemma getTextContentList_eq_map_join (xs : List ReactNode) :
    getTextContentList xs = String.join (xs.map getTextContent) := by
  induction xs with
  | nil => simp [getTextContentList, String.join]
  | cons x xs ih => simp only [getTextContentList, ih, List.map, join_cons]

/-!
## Claims
-/

/-- C6: for every nested text-like input, the flattener returns the
depth-first, left-to-right concatenation of all text fragments with no
separators inserted, and flattening a nested sequence equals
concatenating the flattened results of its elements in order.  (Purity
is inherent: `getTextContent` is embedded as a total function of its
argument alone, faithfully to the source, which only reads its
input.) -/
theorem c6_flattener_concatenation :
    (∀ n : ReactNode, getTextContent n = String.join (textFragments n)) ∧
    (∀ xs : List ReactNode,
      getTextContent (ReactNode.arr xs) = String.join (xs.map getTextContent)) :=
  ⟨getTextContent_eq_join, fun xs => getTextContentList_eq_map_join xs⟩

/-- C10: the flattener is total over arbitrary node trees, and on every
input that is not a string, number, array, or element carrying props —
`null`, `undefined`, a boolean, an element with falsy `props` (and an
element whose `children` is `undefined`) — it returns the empty
string.  Totality (never throwing) is inherent in the embedding as a
total Lean function. -/
theorem c10_flattener_total_empty :
    getTextContent ReactNode.nullNode = "" ∧
    getTextContent ReactNode.undefNode = "" ∧
    (∀ b : Bool, getTextContent (ReactNode.boolNode b) = "") ∧
    getTextContent ReactNode.elemNoProps = "" ∧
    getTextContent (ReactNode.elem ReactNode.undefNode) = "" :=
  ⟨rfl, rfl, fun _ => rfl, rfl, rfl⟩

/-- C2: whenever `fitMode` includes the width axis and both the probe
width and the container width are positive, the width-axis candidate is
`maxFontSize * (scaleRatio / (measuredWidth / containerWidth))`; and in
the spec's scenario (content `"Hello"`, bounds `[15, 300]`, ratio
`0.4`, container width `500`, measured width `750`) the published
resolved size is `80`. -/
theorem c2_width_candidate_and_scenario :
    (∀ (cfg : Config) (tm pr : Rect),
      (cfg.fitMode = FitMode.width ∨ cfg.fitMode = FitMode.both) →
      0 < tm.width → 0 < pr.width →
      widthAxisSize cfg tm pr =
        cfg.maxFontSize * (cfg.scaleRatio / (tm.width / pr.width))) ∧
    measureAndAdjust helloCfg helloEnv "Hello" 15 = 80 := by
  constructor
  · intro cfg tm pr hmode hw hpw
    exact if_pos ⟨hmode, hw, hpw⟩
  · have hb : isBlank "Hello" = false := by decide
    simp [measureAndAdjust, hb, calculatedPreClamp, heightAxisApply,
      widthAxisSize, clampQ, helloCfg, helloEnv]
    norm_num [jsRound]

/-- On the non-throwing lookup outcomes the refined pass agrees with
`measureAndAdjust`: the refinement changes nothing but the error
path. -/
lemma measureAndAdjustE_agrees_ok (cfg : Config) (tc : String) (p : ℚ)
    (refPresent : Bool) (tm : Rect) :
    measureAndAdjustE cfg
        { textRefPresent := refPresent, lookup := ContainerLookup.notFound,
          textMetrics := tm } tc p =
      Except.ok (measureAndAdjust cfg
        { textRefPresent := refPresent, parent := none, textMetrics := tm } tc p) ∧
    ∀ pr : Rect,
      measureAndAdjustE cfg
          { textRefPresent := refPresent, lookup := ContainerLookup.found pr,
            textMetrics := tm } tc p =
        Except.ok (measureAndAdjust cfg
          { textRefPresent := refPresent, parent := some pr, textMetrics := tm } tc p) := by
  constructor
  · unfold measureAndAdjustE measureAndAdjust
    split <;> rfl
  · intro pr
    unfold measureAndAdjustE measureAndAdjust
    split <;> rfl

/-- C7 (amended): every early-abort of the measurement pass —
measurement disabled, display ref absent, flattened content empty or
whitespace-only, or the container lookup returning no element — leaves
the prior resolved size unchanged; no exception propagates out of the
pass **except** when a configured `parentSelector` is not a valid CSS
selector, in which case `element.closest` (line 80, uncaught) throws a
`SyntaxError` out of the pass — and that is the only input on which an
exception escapes, reachable only when the early guard did not already
skip the pass.  (The exception carve-out is forced by the
counterexample; the original "no exception for any input" is false of
the code.) -/
theorem c7_failure_modes (cfg : Config) (env : MeasureEnvE)
    (tc : String) (p : ℚ) :
    ((cfg.enabled = false ∨ env.textRefPresent = false ∨ isBlank tc = true ∨
        env.lookup = ContainerLookup.notFound) →
      measureAndAdjustE cfg env tc p = Except.ok p) ∧
    (env.lookup ≠ ContainerLookup.throwsSyntaxError →
      ∃ q : ℚ, measureAndAdjustE cfg env tc p = Except.ok q) ∧
    (measureAndAdjustE cfg env tc p = Except.error JsException.syntaxError →
      cfg.enabled = true ∧ env.textRefPresent = true ∧ isBlank tc = false ∧
      env.lookup = ContainerLookup.throwsSyntaxError) := by
  refine ⟨?_, ?_, ?_⟩
  · intro h
    rcases h with h | h | h | h
    · simp [measureAndAdjustE, h]
    · simp [measureAndAdjustE, h]
    · simp [measureAndAdjustE, h]
    · unfold measureAndAdjustE
      rw [h]
      split <;> rfl
  · intro h
    unfold measureAndAdjustE
    cases hl : env.lookup with
    | found pr => split; exacts [⟨p, rfl⟩, ⟨_, rfl⟩]
    | notFound => exact ⟨p, by split <;> rfl⟩
    | throwsSyntaxError => exact absurd hl h
  · intro herr
    unfold measureAndAdjustE at herr
    by_cases hg : (¬cfg.enabled ∨ ¬env.textRefPresent ∨ isBlank tc)
    · rw [if_pos hg] at herr
      exact absurd herr (by simp)
    · rw [if_neg hg] at herr
      push_neg at hg
      obtain ⟨h1, h2, h3⟩ := hg
      cases hl : env.lookup with
      | found pr =>
          rw [hl] at herr
          exact absurd herr (by simp)
      | notFound =>
          rw [hl] at herr
          exact absurd herr (by simp)
      | throwsSyntaxError =>
          exact ⟨by simpa using h1, by simpa using h2, by simpa using h3, rfl⟩

/-- C7 counterexample: an enabled pass (live ref, non-blank content
`"Hello"`) whose configured `parentSelector` is not a valid CSS
selector — `element.closest` throws and the `SyntaxError` escapes the
pass, refuting "no exception propagates out of the measurement pass
for any input or configuration" as stated. -/
theorem c7_counterexample :
    measureAndAdjustE helloCfg invalidSelectorEnv "Hello" 15 =
      Except.error JsException.syntaxError := by
  have hb : isBlank "Hello" = false := by decide
  simp [measureAndAdjustE, hb, invalidSelectorEnv, helloCfg]

/-- C8: an axis whose measured or container extent is zero or negative
yields no candidate (the width block leaves `calculatedSize` at
`maxFontSize`, the height block leaves it unchanged); when no active
axis yields a candidate the pre-clamp size is `maxFontSize`; and in the
spec's scenario (container width `0`, `fitMode = width`, bounds
`[15, 300]`) the resolved size is `300`. -/
theorem c8_degenerate_geometry :
    (∀ (cfg : Config) (tm pr : Rect), tm.width ≤ 0 ∨ pr.width ≤ 0 →
      widthAxisSize cfg tm pr = cfg.maxFontSize) ∧
    (∀ (cfg : Config) (tm pr : Rect) (s : ℚ), tm.height ≤ 0 ∨ pr.height ≤ 0 →
      heightAxisApply cfg tm pr s = s) ∧
    (∀ (cfg : Config) (tm pr : Rect),
      (tm.width ≤ 0 ∨ pr.width ≤ 0) → (tm.height ≤ 0 ∨ pr.height ≤ 0) →
      calculatedPreClamp cfg tm pr = cfg.maxFontSize) ∧
    measureAndAdjust helloCfg zeroEnv "Hello" 15 = 300 := by
  have hw : ∀ (cfg : Config) (tm pr : Rect), tm.width ≤ 0 ∨ pr.width ≤ 0 →
      widthAxisSize cfg tm pr = cfg.maxFontSize := by
    intro cfg tm pr h
    apply if_neg
    rintro ⟨-, hw, hpw⟩
    rcases h with h | h
    · exact absurd hw (not_lt.mpr h)
    · exact absurd hpw (not_lt.mpr h)
  have hh : ∀ (cfg : Config) (tm pr : Rect) (s : ℚ),
      tm.height ≤ 0 ∨ pr.height ≤ 0 → heightAxisApply cfg tm pr s = s := by
    intro cfg tm pr s h
    apply if_neg
    rintro ⟨-, hth, hph⟩
    rcases h with h | h
    · exact absurd hth (not_lt.mpr h)
    · exact absurd hph (not_lt.mpr h)
  refine ⟨hw, hh, ?_, ?_⟩
  · intro cfg tm pr h1 h2
    rw [calculatedPreClamp, hh cfg tm pr _ h2, hw cfg tm pr h1]
  · have hb : isBlank "Hello" = false := by decide
    simp [measureAndAdjust, hb, calculatedPreClamp, heightAxisApply,
      widthAxisSize, clampQ, helloCfg, zeroEnv]
    norm_num [jsRound]

/-- C3: in `both` mode with both axes active (all four extents
positive), the pre-clamp candidate is the minimum of the width-axis and
height-axis candidates, and the full pass clamps exactly once, after
that minimum: the published value is
`round (clamp minFontSize maxFontSize (min widthCand heightCand))` —
no per-axis clamp occurs. -/
theorem c3_min_then_clamp_once (cfg : Config) (env : MeasureEnv)
    (tc : String) (p : ℚ) (tm pr : Rect)
    (hmode : cfg.fitMode = FitMode.both)
    (hw : 0 < tm.width) (hpw : 0 < pr.width)
    (hh : 0 < tm.height) (hph : 0 < pr.height)
    (hen : cfg.enabled = true) (href : env.textRefPresent = true)
    (htc : isBlank tc = false) (hpar : env.parent = some pr)
    (htm : env.textMetrics = tm) :
    calculatedPreClamp cfg tm pr =
      min (cfg.maxFontSize * (cfg.scaleRatio / (tm.width / pr.width)))
          (cfg.maxFontSize * (cfg.scaleRatio / (tm.height / pr.height))) ∧
    measureAndAdjust cfg env tc p =
      ((jsRound (clampQ cfg.minFontSize cfg.maxFontSize
          (min (cfg.maxFontSize * (cfg.scaleRatio / (tm.width / pr.width)))
               (cfg.maxFontSize * (cfg.scaleRatio / (tm.height / pr.height))))) : ℤ) : ℚ) := by
  have hpre : calculatedPreClamp cfg tm pr =
      min (cfg.maxFontSize * (cfg.scaleRatio / (tm.width / pr.width)))
          (cfg.maxFontSize * (cfg.scaleRatio / (tm.height / pr.height))) := by
    rw [calculatedPreClamp, widthAxisSize,
      if_pos ⟨Or.inr hmode, hw, hpw⟩, heightAxisApply,
      if_pos ⟨Or.inr hmode, hh, hph⟩]
  refine ⟨hpre, ?_⟩
  rw [measureAndAdjust]
  rw [if_neg (by simp [hen, href, htc])]
  rw [hpar, htm]
  simp only [hpre]

/-- C3 witness: the both-mode scenario with container `500 × 100` and
probe `750 × 60` — width candidate `80`, height candidate `200`,
published size `round (clamp 15 300 (min 80 200))`. -/
theorem c3_min_then_clamp_once_witness :
    calculatedPreClamp bothCfg { width := 750, height := 60 }
        { width := 500, height := 100 } =
      min ((300 : ℚ) * ((2 / 5) / (750 / 500)))
          ((300 : ℚ) * ((2 / 5) / (60 / 100))) ∧
    measureAndAdjust bothCfg bothEnv "Hello" 15 =
      ((jsRound (clampQ 15 300
          (min ((300 : ℚ) * ((2 / 5) / (750 / 500)))
               ((300 : ℚ) * ((2 / 5) / (60 / 100))))) : ℤ) : ℚ) :=
  c3_min_then_clamp_once bothCfg bothEnv "Hello" 15
    { width := 750, height := 60 } { width := 500, height := 100 }
    rfl (by norm_num : (0:ℚ) < 750) (by norm_num : (0:ℚ) < 500)
    (by norm_num : (0:ℚ) < 60) (by norm_num : (0:ℚ) < 100)
    rfl rfl (by decide) rfl rfl

/-- The clamp lands in `[lo, hi]` whenever `lo ≤ hi`. -/
lemma clampQ_mem (lo hi x : ℚ) (h : lo ≤ hi) :
    lo ≤ clampQ lo hi x ∧ clampQ lo hi x ≤ hi :=
  ⟨le_max_left _ _, max_le h (min_le_left _ _)⟩

/-- `Math.round` maps a value between two integers to an integer
between them. -/
lemma jsRound_mem (m M : ℤ) (x : ℚ) (h1 : (m : ℚ) ≤ x) (h2 : x ≤ (M : ℚ)) :
    m ≤ jsRound x ∧ jsRound x ≤ M := by
  constructor
  · exact Int.le_floor.mpr (by linarith)
  · exact Int.lt_add_one_iff.mp (Int.floor_lt.mpr (by push_cast; linarith))

/-- One measurement pass preserves "the state is an integer within the
integer bounds `[m, M]`": the skip branches keep the state, the compute
branch clamps into `[m, M]` and rounds without leaving it. -/
lemma measureAndAdjust_int_mem (cfg : Config) (env : MeasureEnv) (tc : String)
    (m M : ℤ) (hm : cfg.minFontSize = (m : ℚ)) (hM : cfg.maxFontSize = (M : ℚ))
    (hle : (m : ℚ) ≤ (M : ℚ)) (p : ℚ)
    (hp : ∃ k : ℤ, p = (k : ℚ) ∧ m ≤ k ∧ k ≤ M) :
    ∃ k : ℤ, measureAndAdjust cfg env tc p = (k : ℚ) ∧ m ≤ k ∧ k ≤ M := by
  rw [measureAndAdjust]
  split
  · exact hp
  · split
    · exact hp
    · rename_i parentRect _
      refine ⟨jsRound (clampQ cfg.minFontSize cfg.maxFontSize
        (calculatedPreClamp cfg env.textMetrics parentRect)), rfl, ?_⟩
      have hc := clampQ_mem cfg.minFontSize cfg.maxFontSize
        (calculatedPreClamp cfg env.textMetrics parentRect) (hm ▸ hM ▸ hle)
      exact jsRound_mem m M _ (hm ▸ hc.1) (hM ▸ hc.2)

/-- The pass invariant, iterated over any sequence of passes. -/
lemma runPasses_int_mem (cfg : Config) (m M : ℤ)
    (hm : cfg.minFontSize = (m : ℚ)) (hM : cfg.maxFontSize = (M : ℚ))
    (hle : (m : ℚ) ≤ (M : ℚ)) :
    ∀ (passes : List (MeasureEnv × String)) (p : ℚ),
      (∃ k : ℤ, p = (k : ℚ) ∧ m ≤ k ∧ k ≤ M) →
      ∃ k : ℤ, runPasses cfg p passes = (k : ℚ) ∧ m ≤ k ∧ k ≤ M
  | [], _, hp => hp
  | (env, tc) :: rest, p, hp =>
      runPasses_int_mem cfg m M hm hM hle rest _
        (measureAndAdjust_int_mem cfg env tc m M hm hM hle p hp)

/-- C1 (amended): for every configuration whose `minFontSize` and
`maxFontSize` are **integers** with `minFontSize ≤ maxFontSize`, the
`fontSize` state is initialized to `minFontSize` before any pass runs,
and after any sequence of measurement passes it is an integer within
`[minFontSize, maxFontSize]`.  (The integrality restriction is forced:
with fractional bounds the final `Math.round` can leave the interval,
see the counterexample.) -/
theorem c1_integer_bounds (cfg : Config) (m M : ℤ)
    (hm : cfg.minFontSize = (m : ℚ)) (hM : cfg.maxFontSize = (M : ℚ))
    (hle : m ≤ M) (passes : List (MeasureEnv × String)) :
    runPasses cfg cfg.minFontSize [] = cfg.minFontSize ∧
    ∃ k : ℤ, runPasses cfg cfg.minFontSize passes = (k : ℚ) ∧
      cfg.minFontSize ≤ (k : ℚ) ∧ (k : ℚ) ≤ cfg.maxFontSize := by
  have hleq : (m : ℚ) ≤ (M : ℚ) := by exact_mod_cast hle
  obtain ⟨k, hk, h1, h2⟩ := runPasses_int_mem cfg m M hm hM hleq passes
    cfg.minFontSize ⟨m, hm, le_refl m, hle⟩
  exact ⟨rfl, k, hk, by rw [hm]; exact_mod_cast h1, by rw [hM]; exact_mod_cast h2⟩

/-- C1 witness: the `[15, 300]` scenario configuration, for the empty
sequence and for one `"Hello"` pass. -/
theorem c1_integer_bounds_witness :
    runPasses helloCfg helloCfg.minFontSize [] = helloCfg.minFontSize ∧
    ∃ k : ℤ, runPasses helloCfg helloCfg.minFontSize [(helloEnv, "Hello")] = (k : ℚ) ∧
      helloCfg.minFontSize ≤ (k : ℚ) ∧ (k : ℚ) ≤ helloCfg.maxFontSize :=
  c1_integer_bounds helloCfg 15 300 rfl rfl (by norm_num) [(helloEnv, "Hello")]

/-- C1 counterexample: with the fractional bounds `minFontSize =
maxFontSize = 1/2` (which satisfy `minFontSize ≤ maxFontSize`), the
first measurement pass from the initial state publishes
`Math.round (1/2) = 1 > maxFontSize`: the resolved size leaves
`[minFontSize, maxFontSize]`, refuting the claim as stated. -/
theorem c1_counterexample :
    halfCfg.minFontSize ≤ halfCfg.maxFontSize ∧
    measureAndAdjust halfCfg helloEnv "Hello" halfCfg.minFontSize = 1 ∧
    ¬(measureAndAdjust halfCfg helloEnv "Hello" halfCfg.minFontSize ≤
        halfCfg.maxFontSize) := by
  have hb : isBlank "Hello" = false := by decide
  have h1 : measureAndAdjust halfCfg helloEnv "Hello" halfCfg.minFontSize = 1 := by
    simp [measureAndAdjust, hb, calculatedPreClamp, heightAxisApply,
      widthAxisSize, clampQ, halfCfg, helloEnv]
    norm_num [jsRound]
  refine ⟨le_refl _, h1, ?_⟩
  rw [h1]
  norm_num [halfCfg]

/-- The width block is monotone in `scaleRatio` when `maxFontSize` is
nonnegative: the branch taken does not depend on the ratio, and the
active branch scales the ratio by the nonnegative factor
`maxFontSize / (width ratio)`. -/
lemma widthAxisSize_mono (cfg : Config) (tm pr : Rect) (r₁ r₂ : ℚ)
    (hmax : 0 ≤ cfg.maxFontSize) (hr : r₁ ≤ r₂) :
    widthAxisSize { cfg with scaleRatio := r₁ } tm pr ≤
    widthAxisSize { cfg with scaleRatio := r₂ } tm pr := by
  unfold widthAxisSize
  split_ifs with h
  · obtain ⟨-, hw, hpw⟩ := h
    have hq : 0 < tm.width / pr.width := div_pos hw hpw
    gcongr
  · exact le_refl _

/-- The height block is monotone in `scaleRatio` and in the incoming
running size, by monotonicity of `min`. -/
lemma heightAxisApply_mono (cfg : Config) (tm pr : Rect) (r₁ r₂ s₁ s₂ : ℚ)
    (hmax : 0 ≤ cfg.maxFontSize) (hr : r₁ ≤ r₂) (hs : s₁ ≤ s₂) :
    heightAxisApply { cfg with scaleRatio := r₁ } tm pr s₁ ≤
    heightAxisApply { cfg with scaleRatio := r₂ } tm pr s₂ := by
  unfold heightAxisApply
  split_ifs with h
  · obtain ⟨-, hh, hph⟩ := h
    have hq : 0 < tm.height / pr.height := div_pos hh hph
    apply min_le_min hs
    gcongr
  · exact hs

/-- C9 (amended): for fixed geometry and configuration with
`0 ≤ maxFontSize`, the pre-clamp candidate is monotonically
non-decreasing in the target ratio.  (The nonnegativity restriction is
forced: a negative `maxFontSize` — tolerated by the code — reverses the
ordering, see the counterexample.) -/
theorem c9_monotone_in_ratio (cfg : Config) (tm pr : Rect) (r₁ r₂ : ℚ)
    (hmax : 0 ≤ cfg.maxFontSize) (hr : r₁ ≤ r₂) :
    calculatedPreClamp { cfg with scaleRatio := r₁ } tm pr ≤
    calculatedPreClamp { cfg with scaleRatio := r₂ } tm pr :=
  heightAxisApply_mono cfg tm pr r₁ r₂ _ _ hmax hr
    (widthAxisSize_mono cfg tm pr r₁ r₂ hmax hr)

/-- C9 witness: the scenario configuration at ratios `1/4 ≤ 1/2`. -/
theorem c9_monotone_in_ratio_witness :
    calculatedPreClamp { helloCfg with scaleRatio := 1 / 4 }
        { width := 750, height := 60 } { width := 500, height := 100 } ≤
    calculatedPreClamp { helloCfg with scaleRatio := 1 / 2 }
        { width := 750, height := 60 } { width := 500, height := 100 } :=
  c9_monotone_in_ratio helloCfg { width := 750, height := 60 }
    { width := 500, height := 100 } (1 / 4) (1 / 2)
    (by norm_num [helloCfg]) (by norm_num)

/-- C9 counterexample: with `maxFontSize = -10` (a configuration the
code accepts and the claim quantifies over), width fit on the unit
square, the candidate at ratio `1/2` is `-5` and at ratio `1` is `-10`:
increasing the ratio strictly decreases the candidate, refuting the
claim as stated. -/
theorem c9_counterexample :
    ((1 : ℚ) / 2 ≤ 1) ∧
    calculatedPreClamp (negMaxCfg (1 / 2)) unitRect unitRect = -5 ∧
    calculatedPreClamp (negMaxCfg 1) unitRect unitRect = -10 ∧
    ¬(calculatedPreClamp (negMaxCfg (1 / 2)) unitRect unitRect ≤
        calculatedPreClamp (negMaxCfg 1) unitRect unitRect) := by
  refine ⟨by norm_num, ?_, ?_, ?_⟩ <;>
    norm_num [calculatedPreClamp, heightAxisApply, widthAxisSize,
      negMaxCfg, unitRect]

/-- C4 (demonstrating the defect): with `debounceDelay = 100`, a
trigger at `t = 0` schedules the debounced measurement at `t = 100`;
the effect cleanup runs at `t = 50` (`enabled` becoming false, or
unmount).  The cleanup disconnects the observers but — since the source
cleanup (lines 188–194) never calls `clearTimeout` on the debounce
closure's slot — the timer is still pending afterwards, and at
`t = 100` it fires the captured measurement closure.  On deactivation
that closure (which captured `enabled = true` and still sees a live
ref) performs a full measurement pass after the cleanup ran; on
unmount the fired callback merely aborts at the null ref — in either
case the pending scheduled measurement was not cancelled,
contradicting the claim. -/
theorem c4_stray_timer_fires_after_teardown :
    (ctrlRun 100 (ctrlInit 100)
        [CtrlEvent.trigger 0, CtrlEvent.teardown 50]).installed = false ∧
    (ctrlRun 100 (ctrlInit 100)
        [CtrlEvent.trigger 0, CtrlEvent.teardown 50]).timers = [(100, 0)] ∧
    (ctrlRun 100 (ctrlInit 100)
        [CtrlEvent.trigger 0, CtrlEvent.teardown 50,
         CtrlEvent.fire 100]).execs = [(100, 0)] := by
  decide

/-- C5 (demonstrating the defect): with `debounceDelay = 100`, a
trigger (say a window resize) at `t = 0` and a content change at
`t = 50` — two trigger events less than `debounceDelay` apart.  The
content change re-runs the effect (the flattened content is a
dependency of `measureAndAdjust` and hence of the effect): the old
cleanup leaves generation 0's pending timer alive, and the new
instance's initial `debouncedMeasure()` schedules generation 1.  Both
fire: at `t = 100` with the stale generation-0 state and at `t = 150`
with the new state — two measurement passes where the claim requires
exactly one, the first of them not using the state of the last
event. -/
theorem c5_coalescing_violated_across_rerun :
    (ctrlRun 100 (ctrlInit 100)
        [CtrlEvent.trigger 0, CtrlEvent.effectRerun 50,
         CtrlEvent.fire 100, CtrlEvent.fire 150]).execs
      = [(100, 0), (150, 1)] := by
  decide
